import Mathlib

/-!
Verification development for the FabriCore server: a shallow embedding of the
command-correlation, policy-gating and approval-resume subsystem
(`app/services/tools.py`, `app/services/agent_manager.py`,
`app/api/v1/websocket.py`, `app/ui/components/chat.py`), with theorems
settling the behavioural claims about it.

Conventions of the embedding:
* Python dictionaries whose values are strings are modelled as association
  lists `List (String × String)`; `dict.get` is `getParam`, membership is
  `hasKey`.
* Python truthiness of an optional string (`None` and `""` are falsy) is
  `pyTruthyOpt`.
* A Python function that may raise returns `Except String α`, the `String`
  being `str(e)` of the raised exception.
* The database / remote side reached from `ToolExecutor` is abstracted as an
  `ExecEnv` record of the observable behaviours of those collaborators.
-/

namespace FabriCore

/-- `str.lower()` as a character-wise map (the policy strings are ASCII). -/
def lowerStr (s : String) : String := String.mk (s.toList.map Char.toLower)

/-- Strip leading and trailing whitespace from a character list. -/
def stripChars (l : List Char) : List Char :=
  ((l.dropWhile Char.isWhitespace).reverse.dropWhile Char.isWhitespace).reverse

/-- Python `str.strip()`. -/
def stripStr (s : String) : String := String.mk (stripChars s.toList)

/-- Split a character list on whitespace runs, dropping empty pieces; `acc`
holds the current piece reversed. -/
def splitWsAux : List Char → List Char → List (List Char)
  | [], acc => if acc.isEmpty then [] else [acc.reverse]
  | c :: rest, acc =>
    if c.isWhitespace then
      if acc.isEmpty then splitWsAux rest [] else acc.reverse :: splitWsAux rest []
    else splitWsAux rest (c :: acc)

/-- Python `str.split()` (no separator): split on whitespace runs, dropping
empty pieces. -/
def pySplit (s : String) : List String := (splitWsAux s.toList []).map String.mk

/-- Boolean infix test on character lists. -/
def isInfixB (needle : List Char) : List Char → Bool
  | [] => needle.isEmpty
  | c :: rest => needle.isPrefixOf (c :: rest) || isInfixB needle rest

/-- Substring containment, modelling Python `needle in hay`. -/
def containsSub (hay needle : String) : Bool :=
  isInfixB needle.toList hay.toList

/-- Parameter mapping of a tool invocation: a string-valued JSON object. -/
abbrev Params := List (String × String)

/-- `params.get(k)` — first binding wins, as in a dict with unique keys. -/
def getParam (ps : Params) (k : String) : Option String :=
  (ps.find? (fun kv => kv.1 == k)).map (fun kv => kv.2)

/-- `k in params`. -/
def hasKey (ps : Params) (k : String) : Bool :=
  (ps.find? (fun kv => kv.1 == k)).isSome

/-- `params.get(k)` with Python default `""` semantics for indexing after a
membership test (`params[k]`). -/
def getParamD (ps : Params) (k : String) : String :=
  (getParam ps k).getD ""

/-- Python truthiness of an optional string: `None` and `""` are falsy. -/
def pyTruthyOpt : Option String → Bool
  | none => false
  | some s => !s.isEmpty

/-! ## Security policy (tools.py lines 84-138, data_manager.get_agent_policy) -/

/-- The per-agent policy record
`{hitl_enabled, blocked_commands, requires_approval_for}`. -/
structure Policy where
  hitl_enabled : Bool
  blocked_commands : List String
  requires_approval_for : List String
deriving DecidableEq, Repr

/-- The default policy returned by `get_agent_policy` when none is stored:
HITL disabled, both sets empty (fully permissive). -/
def defaultPolicy : Policy :=
  { hitl_enabled := false, blocked_commands := [], requires_approval_for := [] }

/-- `[x.strip().lower() for x in lst if x.strip()]` (tools.py lines 90-91). -/
def normalizePolicyList (l : List String) : List String :=
  (l.filter (fun x => !(stripStr x).isEmpty)).map (fun x => lowerStr (stripStr x))

/-- Tool names of `AGENT_TOOLS` (tools.py lines 17-61), in catalog order. -/
def valid_tools : List String :=
  ["list_agents", "run_command", "get_system_info", "list_files", "read_file",
   "get_agent_details"]

/-- `TOOL_TO_COMMANDS` (tools.py lines 94-100) with its `.get(tool, [])`
default. -/
def TOOL_TO_COMMANDS (tool : String) : List String :=
  if tool = "list_files" then ["ls"]
  else if tool = "read_file" then ["cat"]
  else if tool = "run_command" then []
  else if tool = "get_system_info" then ["uname", "sysinfo"]
  else []

/-- Resolution of the underlying shell command(s) of a tool
(tools.py lines 102-107): for `run_command` with a `command` parameter, the
first whitespace-delimited token of the stripped command string, lower-cased;
otherwise the fixed `TOOL_TO_COMMANDS` entry. -/
def resolvedCommands (tool : String) (params : Params) : List String :=
  if tool = "run_command" && hasKey params "command" then
    let c := getParamD params "command"
    if !(stripStr c).isEmpty then
      let shell_cmd := lowerStr ((pySplit (stripStr c)).headD "")
      if !shell_cmd.isEmpty then [shell_cmd] else []
    else []
  else TOOL_TO_COMMANDS tool

/-- Execution results of `ToolExecutor.execute`, as shaped dictionaries. -/
inductive Shaped
  | agentsList (agents : List (String × String)) (count : Nat)
  | commandOutput (output : String) (agent_id : String)
  | sysInfo (info : List (String × String)) (agent_id : String)
  | filesOutput (output : String) (path : String)
  | fileContent (content : String) (path : String)
  | agentDetails (agent : List (String × String))
deriving DecidableEq, Repr

/-- A value returned by `execute`: `{"status": "error", ...}`,
`{"status": "paused", ...}`, a `{"success": True, ...}` dictionary, or the
bare `{"error": ...}` dictionary of `_get_agent_details` (tools.py line 304),
which carries no `status` key. -/
inductive ToolResult
  | err (message : String)
  | paused (message : String)
  | success (value : Shaped)
  | plainError (message : String)
deriving DecidableEq, Repr

/-- Gate of the server-side HITL policy check (tools.py line 86):
`agent_id and not approved_by and tool_name != "list_agents"`. -/
def policyGate (tool : String) (params : Params) (approved_by : Option String) : Bool :=
  pyTruthyOpt (getParam params "agent_id") && !pyTruthyOpt approved_by
    && tool != "list_agents"

/-- Message of tools.py line 114. -/
def pauseToolMsg (tool agent_id : String) : String :=
  "Tool \x27" ++ tool ++ "\x27 requires human approval for agent " ++ agent_id ++ "."

/-- Message of tools.py line 121. -/
def pauseCmdMsg (cmd agent_id : String) : String :=
  "Command \x27" ++ cmd ++ "\x27 requires human approval for agent " ++ agent_id ++ "."

/-- Message of tools.py line 128. -/
def blockToolMsg (tool agent_id : String) : String :=
  "Tool \x27" ++ tool ++ "\x27 is blocked by security policy for agent " ++ agent_id ++ "."

/-- Message of tools.py line 134. -/
def blockCmdMsg (cmd agent_id : String) : String :=
  "Command \x27" ++ cmd ++ "\x27 is blocked by security policy for agent " ++ agent_id ++ "."

/-- Body of the policy check once the gate and `hitl_enabled` are passed
(tools.py lines 90-135): requires-approval matches (tool name, then each
resolved command in order) are checked before blocked-command matches, each
returning early. `none` means fall through to execution. -/
def policyDecision (tool : String) (params : Params) (agent_id : String)
    (policy : Policy) : Option ToolResult :=
  if policy.hitl_enabled then
    let requires := normalizePolicyList policy.requires_approval_for
    let blocked := normalizePolicyList policy.blocked_commands
    let cmds := resolvedCommands tool params
    if requires.contains (lowerStr tool) then
      some (.paused (pauseToolMsg tool agent_id))
    else
      match cmds.find? (fun c => requires.contains c) with
      | some c => some (.paused (pauseCmdMsg c agent_id))
      | none =>
        if blocked.contains (lowerStr tool) then
          some (.err (blockToolMsg tool agent_id))
        else
          match cmds.find? (fun c => blocked.contains c) with
          | some c => some (.err (blockCmdMsg c agent_id))
          | none => none
  else none

/-- The whole server-side HITL policy check of `execute`
(tools.py lines 84-138). `policySrc` is the outcome of reading the stored
policy (`self.db.get_agent_policy`): the surrounding `try/except` logs a
warning and falls through to execution when it raises, so an `error` source
yields `none` (fail-open). -/
def hitlCheck (tool : String) (params : Params) (approved_by : Option String)
    (policySrc : Except String Policy) : Option ToolResult :=
  if policyGate tool params approved_by then
    match policySrc with
    | .error _ => none
    | .ok policy => policyDecision tool params (getParamD params "agent_id") policy
  else none

/-! ## Tool execution phase (tools.py lines 140-203 and 205-319) -/

/-- A decoded remote result dictionary (string-valued fields). -/
abbrev RVal := List (String × String)

/-- `result.get(k, "")` on a remote result dictionary. -/
def getRVal (r : RVal) (k : String) : String :=
  ((r.find? (fun kv => kv.1 == k)).map (fun kv => kv.2)).getD ""

/-- Arguments dictionary passed to `AgentManager.send_command`. -/
structure SendArgs where
  command : Option String := none
  args : List String := []
  timeout : Option Nat := none
deriving DecidableEq, Repr

/-- Observable behaviour of the collaborators reached from the executor: the
dispatcher (`AgentManager.send_command`, whose own body returns a result or
raises) and the database queries of `_list_agents` / `_get_agent_details`.
An `Except.error` is the message of the exception the collaborator raised. -/
structure ExecEnv where
  sendCommand : String → String → SendArgs → Except String RVal
  listAgentsRows : Except String (List (String × String))
  agentRow : String → Except String (Option (List (String × String)))

/-- The keyword parameters accepted by `AgentManager.send_command`
(agent_manager.py line 31): `agent_id`, `tool_name`, `arguments`, `db` —
and no `approved_by`. -/
def SEND_COMMAND_PARAMS : List String := ["agent_id", "tool_name", "arguments", "db"]

/-- Python call semantics for a keyword call of `send_command`: binding an
unexpected keyword raises `TypeError` before the body runs. -/
def callSendCommand (env : ExecEnv) (kwargs : List String) (agent_id tool_name : String)
    (arguments : SendArgs) : Except String RVal :=
  match kwargs.find? (fun k => !SEND_COMMAND_PARAMS.contains k) with
  | some k =>
    .error ("AgentManager.send_command() got an unexpected keyword argument \x27"
      ++ k ++ "\x27")
  | none => env.sendCommand agent_id tool_name arguments

/-- Keywords used at the `send_command` call sites of `_run_command`,
`_list_files` and `_read_file` (tools.py lines 234-244, 265-275, 283-293):
these three forward `approved_by`. -/
def kwargsWithApproval : List String :=
  ["agent_id", "tool_name", "arguments", "db", "approved_by"]

/-- Keywords used at the `send_command` call site of `_get_system_info`
(tools.py lines 252-257). -/
def kwargsPlain : List String := ["agent_id", "tool_name", "arguments", "db"]

/-- `_list_agents` (tools.py lines 205-224). -/
def list_agentsImpl (env : ExecEnv) : Except String ToolResult :=
  match env.listAgentsRows with
  | .error m => .error m
  | .ok rows => .ok (.success (.agentsList rows rows.length))

/-- `_run_command` (tools.py lines 226-247): split the command string,
`parts[0]` raises `IndexError` on an empty split, then dispatch
`exec_command` — passing the `approved_by` keyword. -/
def run_commandImpl (env : ExecEnv) (agent_id command : String)
    (_approved_by : Option String) : Except String ToolResult :=
  match pySplit command with
  | [] => .error "list index out of range"
  | cmd_name :: cmd_args =>
    match callSendCommand env kwargsWithApproval agent_id "exec_command"
        { command := some cmd_name, args := cmd_args, timeout := some 30 } with
    | .error m => .error m
    | .ok r => .ok (.success (.commandOutput (getRVal r "output") agent_id))

/-- `_get_system_info` (tools.py lines 249-260). -/
def get_system_infoImpl (env : ExecEnv) (agent_id : String) : Except String ToolResult :=
  match callSendCommand env kwargsPlain agent_id "get_system_info" {} with
  | .error m => .error m
  | .ok r => .ok (.success (.sysInfo r agent_id))

/-- `_list_files` (tools.py lines 262-278). -/
def list_filesImpl (env : ExecEnv) (agent_id path : String)
    (_approved_by : Option String) : Except String ToolResult :=
  match callSendCommand env kwargsWithApproval agent_id "exec_command"
      { command := some "ls", args := ["-la", path], timeout := some 10 } with
  | .error m => .error m
  | .ok r => .ok (.success (.filesOutput (getRVal r "output") path))

/-- `_read_file` (tools.py lines 280-296). -/
def read_fileImpl (env : ExecEnv) (agent_id path : String)
    (_approved_by : Option String) : Except String ToolResult :=
  match callSendCommand env kwargsWithApproval agent_id "exec_command"
      { command := some "cat", args := [path], timeout := some 10 } with
  | .error m => .error m
  | .ok r => .ok (.success (.fileContent (getRVal r "output") path))

/-- `_get_agent_details` (tools.py lines 298-319): a missing agent yields the
bare `{"error": ...}` dictionary. -/
def get_agent_detailsImpl (env : ExecEnv) (agent_id : String) : Except String ToolResult :=
  match env.agentRow agent_id with
  | .error m => .error m
  | .ok none => .ok (.plainError ("Agent " ++ agent_id ++ " not found"))
  | .ok (some row) => .ok (.success (.agentDetails row))

/-- The `try` body of `execute` (tools.py lines 140-164): per-tool required
argument membership checks, then the per-tool helper. `Except.error` is an
exception escaping to the `except` clause. -/
def dispatchPhase (env : ExecEnv) (tool : String) (params : Params)
    (approved_by : Option String) : Except String ToolResult :=
  if tool = "list_agents" then
    list_agentsImpl env
  else if tool = "run_command" then
    if !hasKey params "agent_id" || !hasKey params "command" then
      .ok (.err "Missing required parameters: \x27agent_id\x27 and \x27command\x27")
    else
      run_commandImpl env (getParamD params "agent_id") (getParamD params "command")
        approved_by
  else if tool = "get_system_info" then
    if !hasKey params "agent_id" then
      .ok (.err "Missing required parameter: \x27agent_id\x27")
    else get_system_infoImpl env (getParamD params "agent_id")
  else if tool = "list_files" then
    if !hasKey params "agent_id" || !hasKey params "path" then
      .ok (.err "Missing required parameters: \x27agent_id\x27 and \x27path\x27")
    else
      list_filesImpl env (getParamD params "agent_id") (getParamD params "path")
        approved_by
  else if tool = "read_file" then
    if !hasKey params "agent_id" || !hasKey params "path" then
      .ok (.err "Missing required parameters: \x27agent_id\x27 and \x27path\x27")
    else
      read_fileImpl env (getParamD params "agent_id") (getParamD params "path")
        approved_by
  else if tool = "get_agent_details" then
    if !hasKey params "agent_id" then
      .ok (.err "Missing required parameter: \x27agent_id\x27")
    else get_agent_detailsImpl env (getParamD params "agent_id")
  else
    .ok (.err ("Unknown tool: " ++ tool))

/-- The HITL detection predicate of the `except` clause (tools.py line 170):
`"Action requires approval" in error_msg or "-32001" in error_msg`. -/
def remoteApprovalSignal (error_msg : String) : Bool :=
  containsSub error_msg "Action requires approval" || containsSub error_msg "-32001"

/-- Result of the `except` clause (tools.py lines 165-203): a matched
approval signal yields a paused result (after recording a PendingApproval),
anything else the structured execution failure. -/
def exceptClause (error_msg : String) : ToolResult :=
  if remoteApprovalSignal error_msg then
    .paused "Action requires approval. Admin notified. Please wait for approval."
  else
    .err ("Execution failed: " ++ error_msg)

/-- Message of tools.py line 81. -/
def unknownToolMsg (tool : String) : String :=
  "Tool \x27" ++ tool ++ "\x27 does not exist. Available tools: "
    ++ String.intercalate ", " valid_tools
    ++ ". Please verify the tool name and try again."

/-- `ToolExecutor.execute` (tools.py lines 72-203): catalog validation, then
the HITL policy check, then the guarded dispatch with its `except` clause. -/
def execute (env : ExecEnv) (tool : String) (params : Params)
    (approved_by : Option String) (policySrc : Except String Policy) : ToolResult :=
  if valid_tools.contains tool then
    match hitlCheck tool params approved_by policySrc with
    | some r => r
    | none =>
      match dispatchPhase env tool params approved_by with
      | .ok r => r
      | .error m => exceptClause m
  else .err (unknownToolMsg tool)

/-! ## AgentManager: correlation map, timeout, disconnect
(agent_manager.py lines 10-94) -/

/-- A JSON-RPC error object carried by a reply frame; both fields are read
with `.get`, so both may be absent. -/
structure RpcError where
  code : Option Int := none
  message : Option String := none
deriving DecidableEq, Repr

/-- A reply frame from the agent: at most one of `error` / `result`. -/
structure Reply where
  error : Option RpcError := none
  result : Option RVal := none
deriving DecidableEq, Repr

/-- `response["error"].get("message", "Unknown error")`
(agent_manager.py line 90): the exception message carries only the error
message field; the numeric `code` is never read. -/
def raisedMessage (e : RpcError) : String :=
  e.message.getD "Unknown error"

/-- State of an `asyncio.Future` held in `pending_responses`. -/
inductive FutureState
  | waiting
  | resolvedOk (r : Option RVal)
  | failed (msg : String)
deriving DecidableEq, Repr

/-- How `resolve_response` settles a found future (agent_manager.py lines
89-92): an `error` key fails it with the message only, otherwise it succeeds
with `response.get("result")`. -/
def futureResolution (rep : Reply) : FutureState :=
  match rep.error with
  | some e => .failed (raisedMessage e)
  | none => .resolvedOk rep.result

/-- The `pending_responses` dictionary: request id to future state. -/
abbrev PMap := List (String × FutureState)

/-- Dictionary lookup in `pending_responses`. -/
def lookupP (m : PMap) (rid : String) : Option FutureState :=
  ((m.find? (fun kv => kv.1 == rid)).map (fun kv => kv.2))

/-- Dictionary store `m[rid] = f`: update in place when present, else append. -/
def insertP (m : PMap) (rid : String) (f : FutureState) : PMap :=
  if (lookupP m rid).isSome then
    m.map (fun kv => if kv.1 == rid then (kv.1, f) else kv)
  else m ++ [(rid, f)]

/-- Dictionary delete `del m[rid]` (guarded by membership in the source). -/
def eraseP (m : PMap) (rid : String) : PMap :=
  m.filter (fun kv => kv.1 != rid)

/-- `AgentManager.resolve_response` (agent_manager.py lines 85-94): a known
request id settles its future; an unknown one is discarded with a warning
(the returned flag) and the map is left untouched. -/
def resolve_response (m : PMap) (rid : String) (rep : Reply) : PMap × Bool :=
  if (lookupP m rid).isSome then (insertP m rid (futureResolution rep), false)
  else (m, true)

/-- `timeout=30.0` default of `asyncio.wait_for` in `send_command`
(agent_manager.py line 76). -/
def DEFAULT_TIMEOUT : Nat := 30

/-- Observable outcome of one `send_command` run. -/
structure SendRun where
  result : Except String (Option RVal)
  finalPending : PMap
  elapsed : Nat
deriving Repr

/-- One run of `AgentManager.send_command` (agent_manager.py lines 31-83)
against an abstract schedule of the remote side: `reply = some (t, rep)`
means the agent answer `rep` reaches `resolve_response` after `t` seconds,
`none` that no reply ever arrives. Not-connected raises before the future is
created; otherwise the future is registered, the reply (if it beats the
timeout) settles it, and the `finally` clause always deletes the entry. -/
def send_command_run (pending0 : PMap) (agent_id : String) (connected : Bool)
    (rid : String) (reply : Option (Nat × Reply)) (timeout : Nat) : SendRun :=
  if !connected then
    { result := .error ("Agent " ++ agent_id ++ " is not connected"),
      finalPending := pending0, elapsed := 0 }
  else
    let p1 := insertP pending0 rid .waiting
    match reply with
    | some (t, rep) =>
      if t < timeout then
        let p2 := (resolve_response p1 rid rep).1
        let res : Except String (Option RVal) :=
          match futureResolution rep with
          | .failed m => .error m
          | .resolvedOk r => .ok r
          | .waiting => .error "Command execution timed out"
        { result := res, finalPending := eraseP p2 rid, elapsed := t }
      else
        { result := .error "Command execution timed out",
          finalPending := eraseP p1 rid, elapsed := timeout }
    | none =>
      { result := .error "Command execution timed out",
        finalPending := eraseP p1 rid, elapsed := timeout }

/-- In-memory state of an `AgentManager` (agent_manager.py lines 11-14):
`active_connections` (agent id to connection handle), `agent_info`
(agent id to status field of the stored `AgentCreate`) and
`pending_responses`. -/
structure AMState where
  active_connections : List (String × Nat)
  agent_info : List (String × String)
  pending_responses : PMap
deriving Repr

/-- `AgentManager.disconnect` (agent_manager.py lines 21-26): drop the
connection entry, mark the stored info offline — and touch nothing else. -/
def disconnect (s : AMState) (agent_id : String) : AMState :=
  { active_connections := s.active_connections.filter (fun kv => kv.1 != agent_id),
    agent_info := s.agent_info.map
      (fun kv => if kv.1 == agent_id then (kv.1, "offline") else kv),
    pending_responses := s.pending_responses }

/-! ## Chat approval resume (chat.py lines 185-218) -/

/-- A `PendingApproval` row (model of `app.models.db.PendingApproval`, the
fields written in tools.py lines 184-191 and read in chat.py). -/
structure PendingApprovalRec where
  id : String
  execution_id : String
  agent_id : String
  tool_name : String
  arguments : Params
  status : String
  session_id : String
deriving DecidableEq, Repr

/-- Primary-key lookup `db.query(PendingApproval).get(approval_id)`. -/
def findApproval (store : List PendingApprovalRec) (approval_id : String) :
    Option PendingApprovalRec :=
  store.find? (fun r => r.id == approval_id)

/-- Status mutation of the looked-up row (primary keys are unique). -/
def setApprovalStatus (store : List PendingApprovalRec) (approval_id status : String) :
    List PendingApprovalRec :=
  store.map (fun r => if r.id == approval_id then { r with status := status } else r)

/-- `ChatInterface._handle_approval` (chat.py lines 185-218): look up the row
by id — a missing row is the only no-op; otherwise set its status to
`approved` / `rejected` and, when approving, re-run the recorded tool and
arguments through the injected executor with `approved_by="admin"`. The
second component is the executor result of that re-execution, `none` when
nothing was executed. -/
def handle_approval (store : List PendingApprovalRec) (approval_id : String)
    (approved : Bool) (executor : String → Params → Option String → ToolResult) :
    List PendingApprovalRec × Option ToolResult :=
  match findApproval store approval_id with
  | none => (store, none)
  | some item =>
    if approved then
      (setApprovalStatus store approval_id "approved",
       some (executor item.tool_name item.arguments (some "admin")))
    else
      (setApprovalStatus store approval_id "rejected", none)

/-! ## WebSocket identity handshake (websocket.py lines 29-110) -/

/-- Close codes used by the endpoint. -/
def WS_1003_UNSUPPORTED_DATA : Nat := 1003

/-- Policy-violation close code. -/
def WS_1008_POLICY_VIOLATION : Nat := 1008

/-- Internal-error close code. -/
def WS_1011_INTERNAL_ERROR : Nat := 1011

/-- The `params` field of the first frame: either a decoded mapping (of which
only `agent_id` matters to the handshake result) or a string that the
endpoint re-decodes — `none` inside `encoded` models a string that fails
`json.loads`. -/
inductive ParamsField
  | mapping (agent_id : Option String)
  | encoded (decoded : Option (Option String))
deriving DecidableEq, Repr

/-- The first frame received on a new connection: either text that fails
`json.loads`, or a decoded message with its `method`, `params` and `id`
fields. -/
inductive FirstFrame
  | invalidJson
  | message (method : Option String) (params : ParamsField) (msgId : Option String)
deriving DecidableEq, Repr

/-- The success reply envelope
`{"jsonrpc": "2.0", "result": {"status": "registered", "agent_id": aid},
"id": msg_id}` (websocket.py lines 106-110). -/
structure ResultEnvelope where
  status : String
  agent_id : String
  id : Option String
deriving DecidableEq, Repr

/-- Result of the handshake portion of `websocket_endpoint`. -/
inductive HandshakeOutcome
  | closed (code : Nat)
  | registered (agent_id : String) (reply : ResultEnvelope)
deriving DecidableEq, Repr

/-- The connection registry `active_connections` (agent id to connection
handle). -/
abbrev Registry := List (String × Nat)

/-- `AgentManager.register_connection` (agent_manager.py lines 16-19):
dictionary store, overwriting any prior entry for the same id. -/
def registerConn (reg : Registry) (agent_id : String) (conn : Nat) : Registry :=
  if (reg.find? (fun kv => kv.1 == agent_id)).isSome then
    reg.map (fun kv => if kv.1 == agent_id then (kv.1, conn) else kv)
  else reg ++ [(agent_id, conn)]

/-- Resolution of the params field (websocket.py lines 48-57): a string
params is re-decoded (failure closes with 1003); then
`agent_id = params.get("agent_id", "unknown")`. -/
def decodeParamsField : ParamsField → Option (Option String)
  | .mapping aid => some aid
  | .encoded d => d

/-- The identity-handshake portion of `websocket_endpoint` (websocket.py
lines 29-110) as a function of the first frame. Malformed JSON closes with
1003 (unsupported data); a first message whose method is not
`agent.identify` closes with 1008 (policy violation); a params string that
fails to decode closes with 1003. Otherwise the connection is registered
(overwriting any prior entry for the id) and the endpoint replies with the
result envelope echoing the identifier. `registerOk` abstracts the DB write
of `data_manager.register_agent` (lines 85-103), which runs after the
in-memory registration: its failure closes with 1011. The identity fields of
this model are well-typed strings, so the `AgentCreate` validation of lines
68-82 cannot fail and is not represented. -/
def handshake (frame : FirstFrame) (registerOk : Bool) (reg : Registry)
    (conn : Nat) : HandshakeOutcome × Registry :=
  match frame with
  | .invalidJson => (.closed WS_1003_UNSUPPORTED_DATA, reg)
  | .message method paramsF msgId =>
    if method ≠ some "agent.identify" then
      (.closed WS_1008_POLICY_VIOLATION, reg)
    else
      match decodeParamsField paramsF with
      | none => (.closed WS_1003_UNSUPPORTED_DATA, reg)
      | some aidOpt =>
        let aid := aidOpt.getD "unknown"
        let reg1 := registerConn reg aid conn
        if registerOk then
          (.registered aid { status := "registered", agent_id := aid, id := msgId },
           reg1)
        else (.closed WS_1011_INTERNAL_ERROR, reg1)

/-! ## Concrete scenario data -/

/-- An environment whose agent answers every dispatched command with
`{"output": "removed"}` and whose database holds agent `a1`. -/
def envHealthy : ExecEnv :=
  { sendCommand := fun _ _ _ => .ok [("output", "removed")],
    listAgentsRows := .ok [("id", "a1")],
    agentRow := fun aid => .ok (some [("id", aid), ("hostname", "box1"),
      ("status", "online"), ("platform", "linux")]) }

/-- A JSON-RPC error object carrying the reserved agent-side approval code
`-32001` with a message that does not spell the code out. -/
def reservedCodeError : RpcError :=
  { code := some (-32001),
    message := some "Remote agent policy requires human confirmation" }

/-- The reply frame carrying `reservedCodeError`. -/
def reservedCodeReply : Reply :=
  { error := some reservedCodeError, result := none }

/-- An environment whose dispatched calls fail with the message carried by a
reply frame whose JSON-RPC error object has the reserved code `-32001` but a
message that does not spell the code out. -/
def envRemoteDenied : ExecEnv :=
  { sendCommand := fun _ _ _ => .error (raisedMessage reservedCodeError),
    listAgentsRows := .ok [],
    agentRow := fun _ => .ok none }

/-- A policy with `run_command` listed in both `requires_approval_for` and
`blocked_commands`. -/
def bothSetsPolicy : Policy :=
  { hitl_enabled := true,
    blocked_commands := ["run_command"],
    requires_approval_for := ["run_command"] }

/-- A policy requiring approval for `run_command` only. -/
def approvalOnlyPolicy : Policy :=
  { hitl_enabled := true,
    blocked_commands := [],
    requires_approval_for := ["run_command"] }

/-- A strict policy blocking and gating `run_command`, used to show that the
policy is bypassed when no `agent_id` parameter is supplied. -/
def strictPolicy : Policy :=
  { hitl_enabled := true,
    blocked_commands := ["run_command", "rm"],
    requires_approval_for := ["run_command", "rm"] }

/-- A store holding one already-rejected approval for `get_agent_details`. -/
def rejectedStore : List PendingApprovalRec :=
  [{ id := "ap1", execution_id := "ex1", agent_id := "a1",
     tool_name := "get_agent_details", arguments := [("agent_id", "a1")],
     status := "rejected", session_id := "s1" }]

/-- A store holding one pending approval for the `run_command` invocation of
the §8 scenario. -/
def pendingRunCommandStore : List PendingApprovalRec :=
  [{ id := "ap2", execution_id := "ex2", agent_id := "a1",
     tool_name := "run_command",
     arguments := [("agent_id", "a1"), ("command", "rm -rf /tmp/x")],
     status := "pending", session_id := "s1" }]

/-- The executor closure handed to the chat interface, instantiated with the
healthy environment and no stored policy restrictions. -/
def executorHealthy : String → Params → Option String → ToolResult :=
  fun t p ab => execute envHealthy t p ab (.ok defaultPolicy)

/-- An `AgentManager` state with one live connection for `a1` and one
in-flight pending call `r1`. -/
def amStateInFlight : AMState :=
  { active_connections := [("a1", 7)],
    agent_info := [("a1", "online")],
    pending_responses := [("r1", .waiting)] }

/-- The required parameters checked for each tool in the dispatch phase
(tools.py lines 144, 148, 152, 156, 160). -/
def requiredParams (tool : String) : List String :=
  if tool = "run_command" then ["agent_id", "command"]
  else if tool = "get_system_info" then ["agent_id"]
  else if tool = "list_files" then ["agent_id", "path"]
  else if tool = "read_file" then ["agent_id", "path"]
  else if tool = "get_agent_details" then ["agent_id"]
  else []

/-- The structured missing-argument message each tool returns. -/
def missingArgsMsg (tool : String) : String :=
  if tool = "run_command" then
    "Missing required parameters: \x27agent_id\x27 and \x27command\x27"
  else if tool = "get_system_info" then
    "Missing required parameter: \x27agent_id\x27"
  else if tool = "list_files" then
    "Missing required parameters: \x27agent_id\x27 and \x27path\x27"
  else if tool = "read_file" then
    "Missing required parameters: \x27agent_id\x27 and \x27path\x27"
  else if tool = "get_agent_details" then
    "Missing required parameter: \x27agent_id\x27"
  else ""

/-! ## Helper lemmas -/

theorem find?_some_of_mem {l : List String} {p : String → Bool} {a : String}
    (h1 : a ∈ l) (h2 : p a = true) : ∃ b, l.find? p = some b := by
  have hs : (l.find? p).isSome := List.find?_isSome.mpr ⟨a, h1, h2⟩
  exact Option.isSome_iff_exists.mp hs

theorem filter_bne_self {α : Type} (m : List (String × α)) (rid : String)
    (h : (m.find? (fun kv => kv.1 == rid)) = none) :
    m.filter (fun kv => kv.1 != rid) = m := by
  apply List.filter_eq_self.mpr
  intro kv hkv
  have := List.find?_eq_none.mp h kv hkv
  simpa [bne] using this

theorem eraseP_insertP_fresh (m : PMap) (rid : String) (f : FutureState)
    (h : lookupP m rid = none) : eraseP (insertP m rid f) rid = m := by
  have hfind : m.find? (fun kv => kv.1 == rid) = none := by
    unfold lookupP at h
    exact Option.map_eq_none.mp h
  have hins : insertP m rid f = m ++ [(rid, f)] := by
    unfold insertP lookupP
    rw [hfind]
    rfl
  rw [hins]
  unfold eraseP
  rw [List.filter_append, filter_bne_self m rid hfind]
  simp

theorem resolve_response_unknown (m : PMap) (rid : String) (rep : Reply)
    (h : lookupP m rid = none) : resolve_response m rid rep = (m, true) := by
  unfold resolve_response
  rw [h]
  rfl

/-! ## Claim theorems -/

/-- C1 (confirmed): for a stored policy with `hitl_enabled` true and an
invocation that passes the policy gate (truthy `agent_id`, no pre-approval,
and a gated tool — `list_agents` is exempt by design, so it carries no policy
decision), whenever the tool name, or any resolved underlying command,
appears in both `requires_approval_for` and `blocked_commands` (under the
trimmed, lower-cased normalization the engine applies), `execute` returns a
Pause result — for every environment, so the call is neither silently
executed nor silently blocked: the requires-approval checks run before the
blocked-command checks. -/
theorem c1_both_sets_pause (env : ExecEnv) (tool : String) (params : Params)
    (approved_by : Option String) (policy : Policy)
    (hcat : tool ∈ valid_tools)
    (hgate : policyGate tool params approved_by = true)
    (hhitl : policy.hitl_enabled = true)
    (hboth :
      ((normalizePolicyList policy.requires_approval_for).contains (lowerStr tool) = true ∧
       (normalizePolicyList policy.blocked_commands).contains (lowerStr tool) = true) ∨
      (∃ c ∈ resolvedCommands tool params,
       (normalizePolicyList policy.requires_approval_for).contains c = true ∧
       (normalizePolicyList policy.blocked_commands).contains c = true)) :
    ∃ msg, execute env tool params approved_by (.ok policy) = .paused msg := by
  have hdecision : ∃ msg,
      policyDecision tool params (getParamD params "agent_id") policy
        = some (.paused msg) := by
    unfold policyDecision
    rw [hhitl]
    simp only [if_true]
    by_cases htool :
        (normalizePolicyList policy.requires_approval_for).contains (lowerStr tool) = true
    · rw [if_pos htool]
      exact ⟨_, rfl⟩
    · rw [if_neg htool]
      rcases hboth with ⟨h1, _⟩ | ⟨c, hcmem, hcreq, _⟩
      · exact absurd h1 htool
      · have hmem : c ∈ resolvedCommands tool params := hcmem
        obtain ⟨b, hb⟩ := find?_some_of_mem hmem hcreq
        rw [hb]
        exact ⟨_, rfl⟩
  obtain ⟨msg, hmsg⟩ := hdecision
  have hhitlCheck : hitlCheck tool params approved_by (.ok policy)
      = some (.paused msg) := by
    unfold hitlCheck
    rw [hgate]
    simpa using hmsg
  have hcontains : valid_tools.contains tool = true := List.elem_iff.mpr hcat
  refine ⟨msg, ?_⟩
  unfold execute
  rw [hcontains, if_pos rfl, hhitlCheck]

/-- Witness for `c1_both_sets_pause`: the §8 scenario invocation
`run_command {agent_id: a1, command: rm -rf /tmp/x}` under a policy listing
`run_command` in both sets pauses. -/
theorem c1_both_sets_pause_witness :
    (("run_command" : String) ∈ valid_tools ∧
     policyGate "run_command" [("agent_id", "a1"), ("command", "rm -rf /tmp/x")] none = true ∧
     bothSetsPolicy.hitl_enabled = true ∧
     (normalizePolicyList bothSetsPolicy.requires_approval_for).contains
        (lowerStr "run_command") = true ∧
     (normalizePolicyList bothSetsPolicy.blocked_commands).contains
        (lowerStr "run_command") = true) ∧
    ∃ msg, execute envHealthy "run_command"
        [("agent_id", "a1"), ("command", "rm -rf /tmp/x")] none (.ok bothSetsPolicy)
      = ToolResult.paused msg :=
  ⟨⟨by decide, rfl, rfl, rfl, rfl⟩,
   c1_both_sets_pause envHealthy "run_command"
     [("agent_id", "a1"), ("command", "rm -rf /tmp/x")] none bothSetsPolicy
     (by decide) rfl rfl (Or.inl ⟨rfl, rfl⟩)⟩

/-- C2 (corrected) counterexample: `_handle_approval` checks only that the
row exists, not that it is still `pending` — approving the already-rejected
approval `ap1` mutates its status to `approved` and re-executes the recorded
tool, so resuming a decided PendingApproval is not a no-op. -/
theorem c2_counterexample :
    handle_approval rejectedStore "ap1" true executorHealthy =
      (setApprovalStatus rejectedStore "ap1" "approved",
       some (.success (.agentDetails
         [("id", "a1"), ("hostname", "box1"), ("status", "online"),
          ("platform", "linux")]))) ∧
    setApprovalStatus rejectedStore "ap1" "approved" ≠ rejectedStore :=
  ⟨rfl, by decide⟩

/-- C2 (corrected, amended): resuming a PendingApproval is a no-op only when
the record is missing; when the record exists, `_handle_approval`
re-processes it regardless of its current status — approve sets the status to
`approved` and re-executes the recorded tool name and arguments with
`approved_by="admin"`, deny sets `rejected` — so repeated resume attempts on
an existing record are not idempotent in their side effects. -/
theorem c2_resume_reprocesses (store : List PendingApprovalRec)
    (approval_id : String) (approved : Bool)
    (executor : String → Params → Option String → ToolResult) :
    (findApproval store approval_id = none →
      handle_approval store approval_id approved executor = (store, none)) ∧
    (∀ item, findApproval store approval_id = some item →
      handle_approval store approval_id approved executor =
        (setApprovalStatus store approval_id
           (if approved then "approved" else "rejected"),
         if approved then some (executor item.tool_name item.arguments (some "admin"))
         else none)) := by
  constructor
  · intro h
    unfold handle_approval
    rw [h]
  · intro item h
    unfold handle_approval
    rw [h]
    cases approved <;> rfl

/-- Witness for `c2_resume_reprocesses`: resuming the existing rejected row
`ap1` with an approval re-marks it and re-executes its recorded tool. -/
theorem c2_resume_reprocesses_witness :
    handle_approval rejectedStore "ap1" true executorHealthy =
      (setApprovalStatus rejectedStore "ap1" "approved",
       some (executorHealthy "get_agent_details" [("agent_id", "a1")] (some "admin"))) := by
  have h := (c2_resume_reprocesses rejectedStore "ap1" true executorHealthy).2
    (PendingApprovalRec.mk "ap1" "ex1" "a1" "get_agent_details"
      [("agent_id", "a1")] "rejected" "s1") rfl
  simpa using h

/-- C3 (code_bug): approving the pending `run_command` approval of the §8
scenario does re-enter `execute` with the recorded tool and arguments and
`approved_by="admin"` (bypassing the policy), but the dispatch is never
reached: `_run_command` passes the `approved_by` keyword to
`AgentManager.send_command`, whose signature does not accept it, so the call
raises `TypeError` and the executor returns an execution-failure result — for
every environment, i.e. no frame is ever sent to the agent connection. -/
theorem c3_approved_dispatch_never_reached (env : ExecEnv) :
    handle_approval pendingRunCommandStore "ap2" true
      (fun t p ab => execute env t p ab (.ok defaultPolicy)) =
    (setApprovalStatus pendingRunCommandStore "ap2" "approved",
     some (.err ("Execution failed: AgentManager.send_command() got an unexpected keyword argument \x27approved_by\x27"))) := rfl

/-- C4 (corrected) counterexample: disconnecting `a1` while call `r1` is in
flight removes the connection but leaves the PendingCall future still
waiting — it is not resolved with `AgentDisconnected` at disconnect time. -/
theorem c4_counterexample :
    lookupP (disconnect amStateInFlight "a1").pending_responses "r1"
      = some FutureState.waiting ∧
    (disconnect amStateInFlight "a1").active_connections = [] :=
  ⟨rfl, rfl⟩

/-- C4 (corrected, amended): `AgentManager.disconnect` removes the agent
connection entry and marks the stored info offline but leaves
`pending_responses` untouched for every state, so an in-flight call on that
connection is not resolved at disconnect time; a call whose reply never
arrives fails only with the timeout error `Command execution timed out`. -/
theorem c4_disconnect_leaves_pending :
    (∀ (s : AMState) (aid : String),
      (disconnect s aid).pending_responses = s.pending_responses ∧
      (disconnect s aid).active_connections.find? (fun kv => kv.1 == aid) = none) ∧
    (∀ (p : PMap) (aid rid : String) (t : Nat),
      (send_command_run p aid true rid none t).result
        = .error "Command execution timed out") := by
  constructor
  · intro s aid
    constructor
    · rfl
    · unfold disconnect
      simp only
      rw [List.find?_eq_none]
      intro kv hkv
      have := (List.mem_filter.mp hkv).2
      simpa [bne] using this
  · intro p aid rid t
    rfl

/-- C5 (code_bug): a dispatched call that fails with the reserved agent-side
approval code `-32001` is not treated as a Pause unless the error message
text happens to contain one of the matched substrings:
`resolve_response` raises only the error message (dropping the numeric
code), and the executor except-clause matches on the message text, so this
reply with code `-32001` produces a plain execution-failure result instead
of a paused one. -/
theorem c5_reserved_code_not_treated_as_pause :
    reservedCodeError.code = some (-32001) ∧
    (send_command_run [] "a1" true "r1" (some (5, reservedCodeReply))
        DEFAULT_TIMEOUT).result
      = .error "Remote agent policy requires human confirmation" ∧
    execute envRemoteDenied "get_system_info" [("agent_id", "a1")] none
        (.ok defaultPolicy)
      = .err "Execution failed: Remote agent policy requires human confirmation" :=
  ⟨rfl, rfl, rfl⟩

/-- C6 (corrected) counterexample: with `run_command` requiring approval, an
invocation that is missing its required `command` argument returns a policy
Pause, not the missing-argument error — the policy check runs before argument
validation. -/
theorem c6_counterexample :
    execute envHealthy "run_command" [("agent_id", "a1")] none (.ok approvalOnlyPolicy)
      = .paused (pauseToolMsg "run_command" "a1") ∧
    ToolResult.paused (pauseToolMsg "run_command" "a1")
      ≠ ToolResult.err (missingArgsMsg "run_command") :=
  ⟨rfl, by decide⟩

/-- C6 (corrected, amended): the policy evaluation runs before argument
validation; provided the policy phase does not intervene (returns no Pause or
Block), an invocation of a catalog tool with a required argument missing
returns the structured missing-argument error and never proceeds to
dispatch — for every environment, so no frame is sent. -/
theorem c6_missing_args_no_dispatch (tool : String) (params : Params)
    (approved_by : Option String) (policySrc : Except String Policy)
    (hcat : tool ∈ valid_tools) (hnl : tool ≠ "list_agents")
    (hpolicy : hitlCheck tool params approved_by policySrc = none)
    (hmiss : (requiredParams tool).any (fun k => !hasKey params k) = true) :
    ∀ env : ExecEnv,
      execute env tool params approved_by policySrc = .err (missingArgsMsg tool) := by
  intro env
  have hcontains : valid_tools.contains tool = true := List.elem_iff.mpr hcat
  simp only [valid_tools, List.mem_cons, List.not_mem_nil, or_false] at hcat
  rcases hcat with h | h | h | h | h | h
  · exact absurd h hnl
  · subst h
    have hreq : requiredParams "run_command" = ["agent_id", "command"] := rfl
    rw [hreq] at hmiss
    simp only [List.any_cons, List.any_nil, Bool.or_false] at hmiss
    unfold execute
    rw [hcontains, if_pos rfl, hpolicy]
    have hd : dispatchPhase env "run_command" params approved_by
        = (if !hasKey params "agent_id" || !hasKey params "command" then
             Except.ok (ToolResult.err
               "Missing required parameters: \x27agent_id\x27 and \x27command\x27")
           else
             run_commandImpl env (getParamD params "agent_id")
               (getParamD params "command") approved_by) := rfl
    rw [hd, if_pos hmiss]
    rfl
  · subst h
    have hreq : requiredParams "get_system_info" = ["agent_id"] := rfl
    rw [hreq] at hmiss
    simp only [List.any_cons, List.any_nil, Bool.or_false] at hmiss
    unfold execute
    rw [hcontains, if_pos rfl, hpolicy]
    have hd : dispatchPhase env "get_system_info" params approved_by
        = (if !hasKey params "agent_id" then
             Except.ok (ToolResult.err "Missing required parameter: \x27agent_id\x27")
           else get_system_infoImpl env (getParamD params "agent_id")) := rfl
    rw [hd, if_pos hmiss]
    rfl
  · subst h
    have hreq : requiredParams "list_files" = ["agent_id", "path"] := rfl
    rw [hreq] at hmiss
    simp only [List.any_cons, List.any_nil, Bool.or_false] at hmiss
    unfold execute
    rw [hcontains, if_pos rfl, hpolicy]
    have hd : dispatchPhase env "list_files" params approved_by
        = (if !hasKey params "agent_id" || !hasKey params "path" then
             Except.ok (ToolResult.err
               "Missing required parameters: \x27agent_id\x27 and \x27path\x27")
           else
             list_filesImpl env (getParamD params "agent_id")
               (getParamD params "path") approved_by) := rfl
    rw [hd, if_pos hmiss]
    rfl
  · subst h
    have hreq : requiredParams "read_file" = ["agent_id", "path"] := rfl
    rw [hreq] at hmiss
    simp only [List.any_cons, List.any_nil, Bool.or_false] at hmiss
    unfold execute
    rw [hcontains, if_pos rfl, hpolicy]
    have hd : dispatchPhase env "read_file" params approved_by
        = (if !hasKey params "agent_id" || !hasKey params "path" then
             Except.ok (ToolResult.err
               "Missing required parameters: \x27agent_id\x27 and \x27path\x27")
           else
             read_fileImpl env (getParamD params "agent_id")
               (getParamD params "path") approved_by) := rfl
    rw [hd, if_pos hmiss]
    rfl
  · subst h
    have hreq : requiredParams "get_agent_details" = ["agent_id"] := rfl
    rw [hreq] at hmiss
    simp only [List.any_cons, List.any_nil, Bool.or_false] at hmiss
    unfold execute
    rw [hcontains, if_pos rfl, hpolicy]
    have hd : dispatchPhase env "get_agent_details" params approved_by
        = (if !hasKey params "agent_id" then
             Except.ok (ToolResult.err "Missing required parameter: \x27agent_id\x27")
           else get_agent_detailsImpl env (getParamD params "agent_id")) := rfl
    rw [hd, if_pos hmiss]
    rfl

/-- Witness for `c6_missing_args_no_dispatch`: `run_command` invoked with
only `agent_id`, under the permissive default policy, yields the
missing-argument error. -/
theorem c6_missing_args_no_dispatch_witness :
    hitlCheck "run_command" [("agent_id", "a1")] none (.ok defaultPolicy) = none ∧
    execute envHealthy "run_command" [("agent_id", "a1")] none (.ok defaultPolicy)
      = .err (missingArgsMsg "run_command") :=
  ⟨rfl,
   c6_missing_args_no_dispatch "run_command" [("agent_id", "a1")] none
     (.ok defaultPolicy) (by decide) (by decide) rfl rfl envHealthy⟩

/-- C7 (corrected) counterexample: a malformed-JSON first frame closes the
connection with the unsupported-data code 1003, not the policy-violation
code 1008 the claim states, and no registration occurs. -/
theorem c7_counterexample :
    handshake .invalidJson true [] 0 = (.closed WS_1003_UNSUPPORTED_DATA, []) ∧
    WS_1003_UNSUPPORTED_DATA ≠ WS_1008_POLICY_VIOLATION :=
  ⟨rfl, by decide⟩

/-- C7 (corrected, amended): a malformed-JSON first frame closes with the
unsupported-data code 1003 with no registration; a first frame whose method
is not `agent.identify` closes with the policy-violation code 1008 with no
registration; a well-formed `agent.identify` registers the connection and
replies with a result envelope `{status: "registered", agent_id}` echoing
the handshake identifier. -/
theorem c7_handshake_behavior (reg : Registry) (conn : Nat) :
    (handshake .invalidJson true reg conn = (.closed WS_1003_UNSUPPORTED_DATA, reg)) ∧
    (∀ (method : Option String) (p : ParamsField) (i : Option String),
      method ≠ some "agent.identify" →
      handshake (.message method p i) true reg conn
        = (.closed WS_1008_POLICY_VIOLATION, reg)) ∧
    (∀ (aid : String) (i : Option String),
      handshake (.message (some "agent.identify") (.mapping (some aid)) i) true reg conn
        = (.registered aid (ResultEnvelope.mk "registered" aid i),
           registerConn reg aid conn)) := by
  refine ⟨rfl, ?_, ?_⟩
  · intro method p i h
    simp only [handshake]
    rw [if_pos h]
  · intro aid i
    rfl

/-- Witness for `c7_handshake_behavior`: a first frame carrying
`tool.execute` is closed with the policy-violation code. -/
theorem c7_handshake_behavior_witness :
    (some "tool.execute" ≠ some "agent.identify") ∧
    handshake (.message (some "tool.execute") (.mapping (some "a1")) (some "m1"))
        true [] 9
      = (.closed WS_1008_POLICY_VIOLATION, []) :=
  ⟨by decide,
   (c7_handshake_behavior [] 9).2.1 (some "tool.execute") (.mapping (some "a1"))
     (some "m1") (by decide)⟩

/-- C8 (confirmed): a call dispatched with the default 30-second timeout to a
connected agent that never replies fails with `Command execution timed out`
at 30 seconds; the PendingCall entry for its identifier is removed (the map
returns to its prior state), the identifier no longer resolves, and a late
reply carrying it is discarded with a warning, leaving the whole map — hence
every other PendingCall — unchanged. -/
theorem c8_default_timeout_semantics (pending0 : PMap) (aid rid : String)
    (hfresh : lookupP pending0 rid = none) :
    (send_command_run pending0 aid true rid none DEFAULT_TIMEOUT).result
      = .error "Command execution timed out" ∧
    (send_command_run pending0 aid true rid none DEFAULT_TIMEOUT).elapsed = 30 ∧
    (send_command_run pending0 aid true rid none DEFAULT_TIMEOUT).finalPending
      = pending0 ∧
    (∀ rep : Reply,
      resolve_response
        (send_command_run pending0 aid true rid none DEFAULT_TIMEOUT).finalPending
        rid rep
      = ((send_command_run pending0 aid true rid none DEFAULT_TIMEOUT).finalPending,
         true)) := by
  have hfinal :
      (send_command_run pending0 aid true rid none DEFAULT_TIMEOUT).finalPending
        = pending0 := by
    unfold send_command_run
    simp only [Bool.not_true, Bool.false_eq_true, if_false]
    exact eraseP_insertP_fresh pending0 rid .waiting hfresh
  refine ⟨rfl, rfl, hfinal, ?_⟩
  intro rep
  rw [hfinal]
  exact resolve_response_unknown pending0 rid rep hfresh

/-- Witness for `c8_default_timeout_semantics` at a concrete one-entry map
and fresh identifier. -/
theorem c8_default_timeout_semantics_witness :
    lookupP [("q", FutureState.waiting)] "r1" = none ∧
    (send_command_run [("q", FutureState.waiting)] "a1" true "r1" none
        DEFAULT_TIMEOUT).result = .error "Command execution timed out" ∧
    (send_command_run [("q", FutureState.waiting)] "a1" true "r1" none
        DEFAULT_TIMEOUT).finalPending = [("q", FutureState.waiting)] :=
  ⟨rfl,
   (c8_default_timeout_semantics [("q", FutureState.waiting)] "a1" "r1" rfl).1,
   (c8_default_timeout_semantics [("q", FutureState.waiting)] "a1" "r1" rfl).2.2.1⟩

/-- C9 (confirmed): when reading or evaluating the stored security policy
raises, `execute` logs a warning and falls through: the outcome is identical
to evaluating under the fully permissive default policy (HITL disabled), for
every environment, tool, parameters and approval marker — the policy check
fails open, disabling Pause and Block for that invocation. -/
theorem c9_policy_fail_open (env : ExecEnv) (tool : String) (params : Params)
    (approved_by : Option String) (e : String) :
    execute env tool params approved_by (.error e)
      = execute env tool params approved_by (.ok defaultPolicy) := by
  have h1 : hitlCheck tool params approved_by (.error e) = none := by
    unfold hitlCheck
    split <;> rfl
  have h2 : hitlCheck tool params approved_by (.ok defaultPolicy) = none := by
    unfold hitlCheck
    split <;> rfl
  unfold execute
  rw [h1, h2]

/-- C10 (confirmed): the security policy is consulted exactly when the
parameters carry a truthy `agent_id`, the approval marker is unset (falsy)
and the tool is not `list_agents`; when `agent_id` is omitted or empty the
policy phase returns nothing and `execute` does not depend on the stored
policy at all, so no policy Pause or Block is possible for the invocation. -/
theorem c10_policy_gating (tool : String) (params : Params)
    (approved_by : Option String) (policySrc : Except String Policy) :
    (policyGate tool params approved_by = true ↔
      (pyTruthyOpt (getParam params "agent_id") = true ∧
       pyTruthyOpt approved_by = false ∧ tool ≠ "list_agents")) ∧
    (pyTruthyOpt (getParam params "agent_id") = false →
      hitlCheck tool params approved_by policySrc = none ∧
      ∀ (env : ExecEnv) (policySrc2 : Except String Policy),
        execute env tool params approved_by policySrc
          = execute env tool params approved_by policySrc2) := by
  constructor
  · unfold policyGate
    simp [Bool.and_eq_true, bne_iff_ne, and_assoc]
  · intro hfalse
    have hgate : policyGate tool params approved_by = false := by
      unfold policyGate
      rw [hfalse]
      rfl
    have hnone : hitlCheck tool params approved_by policySrc = none := by
      unfold hitlCheck
      rw [hgate]
      rfl
    refine ⟨hnone, ?_⟩
    intro env policySrc2
    have hnone2 : hitlCheck tool params approved_by policySrc2 = none := by
      unfold hitlCheck
      rw [hgate]
      rfl
    unfold execute
    rw [hnone, hnone2]

/-- Witness for `c10_policy_gating`: a `run_command` invocation without any
`agent_id` parameter bypasses even the strict policy that blocks and gates
`run_command` and `rm`. -/
theorem c10_policy_gating_witness :
    pyTruthyOpt (getParam [("command", "rm -rf /")] "agent_id") = false ∧
    hitlCheck "run_command" [("command", "rm -rf /")] none (.ok strictPolicy) = none :=
  ⟨rfl,
   ((c10_policy_gating "run_command" [("command", "rm -rf /")] none
      (.ok strictPolicy)).2 rfl).1⟩

end FabriCore
